import Mathlib

/-!
Verification of the NN Insurance MCP server's core logic (`src/index.ts`):
the rule-based policy recommendation engine (risk scoring, coverage
selection, premium estimation) and the HTML extraction pipeline.

JavaScript numbers are modelled as rationals (ℚ); a JS truthy test on an
optional number is "present and nonzero".  `Math.round` is modelled as
`⌊q + 1/2⌋`, which agrees with JS rounding (halves toward +∞).
-/

namespace NNInsurance

/-- `UserProfile` from `src/index.ts` lines 33–43: every field optional. -/
structure UserProfile where
  age : Option ℚ := none
  drivingExperience : Option ℚ := none
  vehicleType : Option String := none
  annualMileage : Option ℚ := none
  drivingHabits : Option String := none
  hasAccidents : Option Bool := none
  accidentCount : Option ℚ := none
  vehicleValue : Option ℚ := none
  budgetRange : Option String := none

/-- JS `Math.round`: round half toward positive infinity. -/
def jsRound (q : ℚ) : ℤ := ⌊q + 1/2⌋

/-- Age contribution to the risk score, `recommendPolicy` lines 379–384:
the whole block is guarded by the truthy test `if (profile.age)`, so an
absent or zero age contributes nothing; otherwise an ordered
if/else-if chain: `<25 → +3`, `<35 → +1`, `>70 → +2`, else `+0`. -/
def ageTerm (p : UserProfile) : ℚ :=
  match p.age with
  | none => 0
  | some a =>
    if a = 0 then 0
    else if a < 25 then 3
    else if a < 35 then 1
    else if 70 < a then 2
    else 0

/-- Driving-experience contribution, lines 386–390: truthy-guarded chain
`<2 → +2`, `<5 → +1`, else `+0`. -/
def expTerm (p : UserProfile) : ℚ :=
  match p.drivingExperience with
  | none => 0
  | some e =>
    if e = 0 then 0
    else if e < 2 then 2
    else if e < 5 then 1
    else 0

/-- Accident contribution, lines 392–395:
`if (profile.hasAccidents) riskScore += (profile.accidentCount || 1) * 2`.
The `||` default replaces a falsy (absent or zero) accident count by 1. -/
def accTerm (p : UserProfile) : ℚ :=
  match p.hasAccidents with
  | some true =>
    (match p.accidentCount with
     | none => 1
     | some c => if c = 0 then 1 else c) * 2
  | _ => 0

/-- Mileage contribution, lines 397–400: truthy-guarded `>30000 → +1`. -/
def mileageTerm (p : UserProfile) : ℚ :=
  match p.annualMileage with
  | none => 0
  | some m =>
    if m = 0 then 0
    else if 30000 < m then 1
    else 0

/-- The risk score accumulated by `recommendPolicy` lines 376–400.  The four
blocks touch disjoint profile fields, so the sequential `riskScore += …`
accumulation is exactly the sum of the four independent terms. -/
def riskScore (p : UserProfile) : ℚ :=
  ageTerm p + expTerm p + accTerm p + mileageTerm p

/-- Risk level, lines 430–435: `≤2 → Low`, else `≤4 → Medium`, else `High`. -/
def riskLevel (p : UserProfile) : String :=
  if riskScore p ≤ 2 then "Low"
  else if riskScore p ≤ 4 then "Medium"
  else "High"

/-- Profile with every field absent, for concrete test inputs. -/
def emptyProfile : UserProfile := {}

/-- C1: with `hasAccidents = true`, the accident term is `2 * accidentCount`
for a truthy (present, nonzero) count and `2 * 1` otherwise; in particular
`{hasAccidents: true, accidentCount: 0}` scores +2, not +0. -/
theorem c1_accident_term (p : UserProfile) (hacc : p.hasAccidents = some true) :
    (∀ c, p.accidentCount = some c → c ≠ 0 → accTerm p = 2 * c) ∧
    ((p.accidentCount = none ∨ p.accidentCount = some 0) → accTerm p = 2) ∧
    riskScore p = ageTerm p + expTerm p + accTerm p + mileageTerm p ∧
    riskScore { emptyProfile with hasAccidents := some true, accidentCount := some 0 } = 2 := by
  refine ⟨?_, ?_, rfl,
    by norm_num [riskScore, ageTerm, expTerm, accTerm, mileageTerm, emptyProfile]⟩
  · intro c hc hc0
    simp [accTerm, hacc, hc, hc0]
    ring
  · rintro (hc | hc) <;> simp [accTerm, hacc, hc]

/-- C1 witness: concrete instantiation at `hasAccidents = true`,
`accidentCount = 3`. -/
theorem c1_accident_term_witness :
    accTerm { emptyProfile with hasAccidents := some true, accidentCount := some 3 } = 2 * 3 :=
  (c1_accident_term
    { emptyProfile with hasAccidents := some true, accidentCount := some 3 }
    rfl).1 3 rfl (by norm_num)

/-- C2 counterexample: the claim asserts that every profile with a *present*
age gets age term +3 when age < 25; but for the present age 0 (falsy in JS)
the whole age block is skipped, so the term is 0, not 3. -/
theorem c2_age_zero_counterexample :
    ageTerm { emptyProfile with age := some 0 } = 0 ∧
    (0 : ℚ) < 25 ∧
    ageTerm { emptyProfile with age := some 0 } ≠ 3 := by
  refine ⟨by norm_num [ageTerm, emptyProfile], by norm_num, by norm_num [ageTerm, emptyProfile]⟩

/-- C2 (amended to profiles with a present *nonzero* age): the age term
follows the first-match ordered chain `<25 → +3`, else `<35 → +1`, else
`>70 → +2`, else `+0`; ages in [35,70] contribute nothing and age 24
contributes exactly 3. -/
theorem c2_age_first_match (p : UserProfile) (a : ℚ)
    (ha : p.age = some a) (ha0 : a ≠ 0) :
    (a < 25 → ageTerm p = 3) ∧
    (25 ≤ a → a < 35 → ageTerm p = 1) ∧
    (35 ≤ a → a ≤ 70 → ageTerm p = 0) ∧
    (70 < a → ageTerm p = 2) := by
  refine ⟨fun h => ?_, fun h1 h2 => ?_, fun h1 h2 => ?_, fun h => ?_⟩
  · simp [ageTerm, ha, ha0, h]
  · simp [ageTerm, ha, ha0, h2, not_lt.mpr h1]
  · simp [ageTerm, ha, ha0, not_lt.mpr (by linarith : (25:ℚ) ≤ a), not_lt.mpr h1, not_lt.mpr h2]
  · simp [ageTerm, ha, ha0, not_lt.mpr (by linarith : (25:ℚ) ≤ a),
      not_lt.mpr (by linarith : (35:ℚ) ≤ a), h]

/-- C2 witness: age 24 contributes exactly 3. -/
theorem c2_age_first_match_witness :
    ageTerm { emptyProfile with age := some 24 } = 3 :=
  (c2_age_first_match { emptyProfile with age := some 24 } 24 rfl
    (by norm_num)).1 (by norm_num)

lemma ageTerm_nat (p : UserProfile) : ∃ n : ℕ, ageTerm p = n := by
  unfold ageTerm
  cases p.age with
  | none => exact ⟨0, by norm_num⟩
  | some a =>
    dsimp only
    split_ifs
    exacts [⟨0, by norm_num⟩, ⟨3, by norm_num⟩, ⟨1, by norm_num⟩, ⟨2, by norm_num⟩,
      ⟨0, by norm_num⟩]

lemma expTerm_nat (p : UserProfile) : ∃ n : ℕ, expTerm p = n := by
  unfold expTerm
  cases p.drivingExperience with
  | none => exact ⟨0, by norm_num⟩
  | some e =>
    dsimp only
    split_ifs
    exacts [⟨0, by norm_num⟩, ⟨2, by norm_num⟩, ⟨1, by norm_num⟩, ⟨0, by norm_num⟩]

lemma mileageTerm_nat (p : UserProfile) : ∃ n : ℕ, mileageTerm p = n := by
  unfold mileageTerm
  cases p.annualMileage with
  | none => exact ⟨0, by norm_num⟩
  | some m =>
    dsimp only
    split_ifs
    exacts [⟨0, by norm_num⟩, ⟨1, by norm_num⟩, ⟨0, by norm_num⟩]

lemma accTerm_nat (p : UserProfile)
    (h : ∀ c ∈ p.accidentCount, ∃ n : ℕ, c = (n : ℚ)) : ∃ n : ℕ, accTerm p = n := by
  unfold accTerm
  cases hb : p.hasAccidents with
  | none => exact ⟨0, by norm_num⟩
  | some b =>
    cases b with
    | false => exact ⟨0, by norm_num⟩
    | true =>
      cases hc : p.accidentCount with
      | none => exact ⟨2, by norm_num⟩
      | some c =>
        obtain ⟨n, hn⟩ := h c (by simp [hc])
        by_cases h0 : c = 0
        · exact ⟨2, by simp [h0]⟩
        · refine ⟨2 * n, ?_⟩
          simp only [h0, if_false]
          rw [hn]
          push_cast
          ring

/-- Claim-side condition "the optional number is present and exceeds `c`". -/
def optGt (o : Option ℚ) (c : ℚ) : Prop :=
  match o with
  | none => False
  | some v => c < v

instance instDecidableOptGt (o : Option ℚ) (c : ℚ) : Decidable (optGt o c) :=
  match o with
  | none => isFalse (fun h => h)
  | some v => inferInstanceAs (Decidable (c < v))

/-- Coverage list built by `recommendPolicy` lines 402–422: a mandatory
baseline entry, then four independent conditional `push` groups, in source
order.  The `vehicleValue && vehicleValue > 20000` and
`annualMileage && annualMileage > 20000` guards combine a JS truthy test
with the comparison. -/
def recommendedCoverages (p : UserProfile) : List String :=
  let cs : List String := ["Third-Party Liability (Mandatory)"]
  let cs := if 4 ≤ riskScore p then cs ++ ["Comprehensive Coverage", "Collision Protection"]
    else cs
  let cs := match p.vehicleValue with
    | none => cs
    | some v =>
      if v ≠ 0 ∧ 20000 < v then cs ++ ["Full Coverage Package", "Roadside Assistance"] else cs
  let cs := match p.annualMileage with
    | none => cs
    | some m => if m ≠ 0 ∧ 20000 < m then cs ++ ["Breakdown Assistance"] else cs
  let cs := if p.drivingHabits = some "highway" then
      cs ++ ["Extended Coverage", "Legal Assistance"]
    else cs
  cs

lemma recommendedCoverages_characterization (p : UserProfile) :
    recommendedCoverages p =
      ["Third-Party Liability (Mandatory)"]
      ++ (if 4 ≤ riskScore p then ["Comprehensive Coverage", "Collision Protection"] else [])
      ++ (if optGt p.vehicleValue 20000 then ["Full Coverage Package", "Roadside Assistance"]
          else [])
      ++ (if optGt p.annualMileage 20000 then ["Breakdown Assistance"] else [])
      ++ (if p.drivingHabits = some "highway" then ["Extended Coverage", "Legal Assistance"]
          else []) := by
  unfold recommendedCoverages optGt
  cases hv : p.vehicleValue <;> cases hm : p.annualMileage <;> dsimp only <;>
    split_ifs <;> simp_all <;> linarith

/-- C6: `recommendedCoverages` always begins with the mandatory baseline
entry, then the risk pair exactly when `riskScore ≥ 4`, then the
vehicle-value pair exactly when `vehicleValue > 20000`, then Breakdown
Assistance exactly when `annualMileage > 20000` (not 30000), then the
highway pair; append-only, fixed order, no removal or de-duplication. -/
theorem c6_coverage_order (p : UserProfile) :
    recommendedCoverages p =
      ["Third-Party Liability (Mandatory)"]
      ++ (if 4 ≤ riskScore p then ["Comprehensive Coverage", "Collision Protection"] else [])
      ++ (if optGt p.vehicleValue 20000 then ["Full Coverage Package", "Roadside Assistance"]
          else [])
      ++ (if optGt p.annualMileage 20000 then ["Breakdown Assistance"] else [])
      ++ (if p.drivingHabits = some "highway" then ["Extended Coverage", "Legal Assistance"]
          else []) :=
  recommendedCoverages_characterization p

/-- C3: the Extended Coverage and Legal Assistance entries are present iff
`drivingHabits` is exactly the lowercase literal `"highway"`; any other
value (including `"Highway"` or `"Highway (long distances)"`) omits them. -/
theorem c3_highway_exact_match (p : UserProfile) :
    ("Extended Coverage" ∈ recommendedCoverages p ∧
      "Legal Assistance" ∈ recommendedCoverages p) ↔
      p.drivingHabits = some "highway" := by
  rw [recommendedCoverages_characterization]
  constructor
  · rintro ⟨h1, -⟩
    by_contra hne
    simp only [hne, if_false, List.append_nil] at h1
    split_ifs at h1 <;> simp_all
  · intro h
    simp [h]

/-- C5 counterexample: with `hasAccidents = true` and the (unvalidated)
supplied value `accidentCount = -1`, the risk score is `-2`, which is
negative — the claim asserts non-negativity for *any* supplied numbers. -/
theorem c5_negative_counterexample :
    riskScore { emptyProfile with hasAccidents := some true, accidentCount := some (-1) } = -2 ∧
    ¬ (0 : ℚ) ≤
      riskScore { emptyProfile with hasAccidents := some true, accidentCount := some (-1) } := by
  constructor
  · norm_num [riskScore, ageTerm, expTerm, accTerm, mileageTerm, emptyProfile]
  · norm_num [riskScore, ageTerm, expTerm, accTerm, mileageTerm, emptyProfile]

/-- C5 (amended to profiles whose `accidentCount`, when present, is a
non-negative integer): the risk score is a non-negative integer, i.e. a
natural number, for every such profile — all other fields arbitrary. -/
theorem c5_riskscore_nat (p : UserProfile)
    (h : ∀ c ∈ p.accidentCount, ∃ n : ℕ, c = (n : ℚ)) :
    ∃ n : ℕ, riskScore p = (n : ℚ) := by
  obtain ⟨n1, h1⟩ := ageTerm_nat p
  obtain ⟨n2, h2⟩ := expTerm_nat p
  obtain ⟨n3, h3⟩ := accTerm_nat p h
  obtain ⟨n4, h4⟩ := mileageTerm_nat p
  refine ⟨n1 + n2 + n3 + n4, ?_⟩
  rw [riskScore, h1, h2, h3, h4]
  push_cast
  ring

/-- C5 witness: concrete instantiation at `hasAccidents = true`,
`accidentCount = 2` — the risk score is the natural number 4. -/
theorem c5_riskscore_nat_witness :
    ∃ n : ℕ,
      riskScore { emptyProfile with hasAccidents := some true, accidentCount := some 2 } =
        (n : ℚ) :=
  c5_riskscore_nat
    { emptyProfile with hasAccidents := some true, accidentCount := some 2 }
    (by intro c hc; exact ⟨2, by simpa using hc.symm⟩)

/-- Pre-cap base price from `calculateEstimatedPremium` lines 463–476:
`80`, plus `riskScore * 15`, plus `vehicleValue / 1000` under a truthy
guard, plus `20` when the (truthy) annual mileage exceeds 30000. -/
def basePrice (p : UserProfile) (rs : ℚ) : ℚ :=
  let b : ℚ := 80
  let b := b + rs * 15
  let b := match p.vehicleValue with
    | none => b
    | some v => if v = 0 then b else b + v / 1000
  let b := match p.annualMileage with
    | none => b
    | some m => if m = 0 then b else if 30000 < m then b + 20 else b
  b

/-- Budget cap from lines 478–483: `min` with 100 for the literal
`"€50-100"`, else `min` with 150 for `"€100-150"`, else unchanged. -/
def cappedBase (p : UserProfile) (rs : ℚ) : ℚ :=
  if p.budgetRange = some "€50-100" then min (basePrice p rs) 100
  else if p.budgetRange = some "€100-150" then min (basePrice p rs) 150
  else basePrice p rs

/-- `Math.round(basePrice)`, line 485. -/
def estimatedMonthly (p : UserProfile) (rs : ℚ) : ℤ :=
  jsRound (cappedBase p rs)

/-- `Math.round(basePrice * 12)`, line 486. -/
def estimatedAnnual (p : UserProfile) (rs : ℚ) : ℤ :=
  jsRound (cappedBase p rs * 12)

/-- `calculateEstimatedPremium` lines 462–489, result string of line 488. -/
def calculateEstimatedPremium (p : UserProfile) (rs : ℚ) : String :=
  let m := estimatedMonthly p rs
  let a := estimatedAnnual p rs
  s!"€{m}/month (approximately €{a}/year)"

/-- Modelled from the spec sentence of C4: base `80 + 15·riskScore`, plus
`vehicleValue / 1000` when present and truthy, plus 20 when
`annualMileage > 30000`, as one sum of independent addends. -/
def specBase (p : UserProfile) (rs : ℚ) : ℚ :=
  80 + 15 * rs
  + (match p.vehicleValue with
     | none => 0
     | some v => if v ≠ 0 then v / 1000 else 0)
  + (if optGt p.annualMileage 30000 then 20 else 0)

/-- Spec-side budget cap: 100 exactly for the literal `"€50-100"`, 150
exactly for `"€100-150"`, otherwise no cap. -/
def specCappedBase (p : UserProfile) (rs : ℚ) : ℚ :=
  if p.budgetRange = some "€50-100" then min (specBase p rs) 100
  else if p.budgetRange = some "€100-150" then min (specBase p rs) 150
  else specBase p rs

/-- Spec-side premium string: `round` of the capped base and of 12 times
the capped base, rendered as `€<m>/month (approximately €<a>/year)`. -/
def specPremium (p : UserProfile) (rs : ℚ) : String :=
  let m := jsRound (specCappedBase p rs)
  let a := jsRound (specCappedBase p rs * 12)
  s!"€{m}/month (approximately €{a}/year)"

lemma basePrice_eq_specBase (p : UserProfile) (rs : ℚ) :
    basePrice p rs = specBase p rs := by
  unfold basePrice specBase optGt
  cases hv : p.vehicleValue <;> cases hm : p.annualMileage <;> dsimp only <;>
    split_ifs <;> simp_all <;> first | ring1 | linarith

/-- C4: the estimated premium agrees, for every profile and risk score,
with the spec's description: base `80 + 15·rs` plus truthy-guarded
`vehicleValue/1000` plus 20 over 30000 km, capped per the two exact budget
literals, rounded monthly and annually, and rendered as
`€<monthly>/month (approximately €<annual>/year)`. -/
theorem c4_premium_formula (p : UserProfile) (rs : ℚ) :
    calculateEstimatedPremium p rs = specPremium p rs := by
  unfold calculateEstimatedPremium specPremium estimatedMonthly estimatedAnnual
    cappedBase specCappedBase
  rw [basePrice_eq_specBase]

lemma ageTerm_nonneg (p : UserProfile) : 0 ≤ ageTerm p := by
  obtain ⟨n, hn⟩ := ageTerm_nat p
  rw [hn]
  exact n.cast_nonneg

lemma expTerm_nonneg (p : UserProfile) : 0 ≤ expTerm p := by
  obtain ⟨n, hn⟩ := expTerm_nat p
  rw [hn]
  exact n.cast_nonneg

lemma mileageTerm_nonneg (p : UserProfile) : 0 ≤ mileageTerm p := by
  obtain ⟨n, hn⟩ := mileageTerm_nat p
  rw [hn]
  exact n.cast_nonneg

lemma accTerm_nonneg (p : UserProfile) (h : ∀ c ∈ p.accidentCount, 0 ≤ c) :
    0 ≤ accTerm p := by
  unfold accTerm
  cases hb : p.hasAccidents with
  | none => norm_num
  | some b =>
    cases b with
    | false => norm_num
    | true =>
      cases hc : p.accidentCount with
      | none => norm_num
      | some c =>
        have hc0 : 0 ≤ c := h c (by simp [hc])
        dsimp only
        split_ifs with h0
        · norm_num
        · linarith

lemma riskScore_nonneg (p : UserProfile) (h : ∀ c ∈ p.accidentCount, 0 ≤ c) :
    0 ≤ riskScore p := by
  have h1 := ageTerm_nonneg p
  have h2 := expTerm_nonneg p
  have h3 := accTerm_nonneg p h
  have h4 := mileageTerm_nonneg p
  unfold riskScore
  linarith

lemma basePrice_ge_80 (p : UserProfile) (rs : ℚ) (hrs : 0 ≤ rs)
    (hv : ∀ v ∈ p.vehicleValue, 0 ≤ v) : 80 ≤ basePrice p rs := by
  unfold basePrice
  cases hvv : p.vehicleValue with
  | none =>
    cases hm : p.annualMileage <;> dsimp only <;> (try split_ifs) <;> linarith
  | some v =>
    have hv0 : 0 ≤ v := hv v (by simp [hvv])
    have hdiv : 0 ≤ v / 1000 := by positivity
    cases hm : p.annualMileage <;> dsimp only <;> (try split_ifs) <;> linarith

lemma cappedBase_ge_80 (p : UserProfile) (rs : ℚ) (hrs : 0 ≤ rs)
    (hv : ∀ v ∈ p.vehicleValue, 0 ≤ v) : 80 ≤ cappedBase p rs := by
  have hb := basePrice_ge_80 p rs hrs hv
  unfold cappedBase
  split_ifs
  · exact le_min hb (by norm_num)
  · exact le_min hb (by norm_num)
  · exact hb

lemma le_jsRound (z : ℤ) (q : ℚ) (h : (z : ℚ) ≤ q) : z ≤ jsRound q := by
  unfold jsRound
  exact Int.le_floor.mpr (by linarith)

/-- C10: when every supplied numeric field is non-negative, the estimated
monthly premium is at least 80 and the annual at least 960, whichever
budget cap applies. -/
theorem c10_premium_lower_bound (p : UserProfile)
    (_hage : ∀ a ∈ p.age, 0 ≤ a)
    (_hexp : ∀ e ∈ p.drivingExperience, 0 ≤ e)
    (_hmil : ∀ m ∈ p.annualMileage, 0 ≤ m)
    (hacc : ∀ c ∈ p.accidentCount, 0 ≤ c)
    (hveh : ∀ v ∈ p.vehicleValue, 0 ≤ v) :
    80 ≤ estimatedMonthly p (riskScore p) ∧ 960 ≤ estimatedAnnual p (riskScore p) := by
  have hb : 80 ≤ cappedBase p (riskScore p) :=
    cappedBase_ge_80 p (riskScore p) (riskScore_nonneg p hacc) hveh
  constructor
  · exact le_jsRound 80 _ (by push_cast; linarith)
  · exact le_jsRound 960 _ (by push_cast; linarith)

/-- C10 witness: for the all-absent profile the monthly estimate is at
least 80 and the annual at least 960. -/
theorem c10_premium_lower_bound_witness :
    80 ≤ estimatedMonthly emptyProfile (riskScore emptyProfile) ∧
    960 ≤ estimatedAnnual emptyProfile (riskScore emptyProfile) :=
  c10_premium_lower_bound emptyProfile (by simp [emptyProfile]) (by simp [emptyProfile])
    (by simp [emptyProfile]) (by simp [emptyProfile]) (by simp [emptyProfile])

/-- The `profileSummary` object built at lines 426–437. -/
structure ProfileSummary where
  age : Option ℚ
  experience : Option ℚ
  vehicleType : Option String
  riskLevel : String
  riskScore : ℚ

/-- Lines 426–437: three pass-through fields (`experience` holds
`drivingExperience`) plus the computed risk level and score. -/
def profileSummary (p : UserProfile) : ProfileSummary :=
  { age := p.age
    experience := p.drivingExperience
    vehicleType := p.vehicleType
    riskLevel := riskLevel p
    riskScore := riskScore p }

/-- Keys present in the JSON rendering of `profileSummary` (line 459 uses
`JSON.stringify`, which omits properties holding `undefined`): the three
optional pass-through fields appear exactly when present, the two computed
fields always, in the literal's order. -/
def profileSummaryKeys (p : UserProfile) : List String :=
  (if p.age.isSome then ["age"] else [])
  ++ (if p.drivingExperience.isSome then ["experience"] else [])
  ++ (if p.vehicleType.isSome then ["vehicleType"] else [])
  ++ ["riskLevel", "riskScore"]

/-- C9: the serialized `profileSummary` draws only on the five keys `age`,
`experience`, `vehicleType`, `riskLevel`, `riskScore`; the other six
profile fields never appear; the optional three are present exactly when
supplied (absent stays absent), and the values are passed through. -/
theorem c9_profile_summary_frame (p : UserProfile) :
    (∀ k ∈ profileSummaryKeys p,
        k ∈ ["age", "experience", "vehicleType", "riskLevel", "riskScore"]) ∧
    "riskLevel" ∈ profileSummaryKeys p ∧
    "riskScore" ∈ profileSummaryKeys p ∧
    ("age" ∈ profileSummaryKeys p ↔ p.age.isSome) ∧
    ("experience" ∈ profileSummaryKeys p ↔ p.drivingExperience.isSome) ∧
    ("vehicleType" ∈ profileSummaryKeys p ↔ p.vehicleType.isSome) ∧
    "drivingHabits" ∉ profileSummaryKeys p ∧
    "annualMileage" ∉ profileSummaryKeys p ∧
    "hasAccidents" ∉ profileSummaryKeys p ∧
    "accidentCount" ∉ profileSummaryKeys p ∧
    "vehicleValue" ∉ profileSummaryKeys p ∧
    "budgetRange" ∉ profileSummaryKeys p ∧
    (profileSummary p).age = p.age ∧
    (profileSummary p).experience = p.drivingExperience ∧
    (profileSummary p).vehicleType = p.vehicleType := by
  cases hA : p.age.isSome <;> cases hB : p.drivingExperience.isSome <;>
    cases hC : p.vehicleType.isSome <;>
    simp [profileSummaryKeys, profileSummary, hA, hB, hC]

/-- Element tree produced by the HTML parser (cheerio): an element with a
tag name, its `class` tokens and children, or a text node. -/
inductive Html where
  | elem (tag : String) (classes : List String) (children : List Html)
  | text (s : String)

mutual
/-- cheerio `$(element).text()`: concatenated descendant text, in order. -/
def textContent : Html → String
  | .text s => s
  | .elem _ _ cs => textContentList cs

def textContentList : List Html → String
  | [] => ""
  | c :: cs => textContent c ++ textContentList cs
end

mutual
/-- cheerio `.find(selector)`: matching proper descendants of a node, in
document (preorder) order. -/
def findMatching (pred : Html → Bool) : Html → List Html
  | .text _ => []
  | .elem _ _ cs => findMatchingList pred cs

def findMatchingList (pred : Html → Bool) : List Html → List Html
  | [] => []
  | c :: cs => (if pred c then [c] else []) ++ findMatching pred c ++ findMatchingList pred cs
end

/-- cheerio `$(selector)` over a whole document: every matching element,
the root included, in document order. -/
def selectAll (pred : Html → Bool) (doc : Html) : List Html :=
  (if pred doc then [doc] else []) ++ findMatching pred doc

/-- Strip leading and trailing whitespace from a character list. -/
def trimCharList (cs : List Char) : List Char :=
  ((cs.dropWhile Char.isWhitespace).reverse.dropWhile Char.isWhitespace).reverse

/-- JS `String.prototype.trim()`. -/
def jsTrim (s : String) : String :=
  String.mk (trimCharList s.data)

/-- Tag allow-list of the `extract_text` selector, line 207:
`p, h1, h2, h3, h4, h5, h6, li, span, div`. -/
def isTextTag : Html → Bool
  | .elem t _ _ =>
    t = "p" || t = "h1" || t = "h2" || t = "h3" || t = "h4" || t = "h5" || t = "h6" ||
      t = "li" || t = "span" || t = "div"
  | .text _ => false

/-- Container selector of `getRGFPolicyInfo`, line 279:
`section, article, .content, .policy-details`. -/
def isContainer : Html → Bool
  | .elem t cls _ =>
    t = "section" || t = "article" || cls.contains "content" || cls.contains "policy-details"
  | .text _ => false

/-- Descendant selector of `getRGFPolicyInfo`, line 280: `h2, h3, li, p`. -/
def isPolicyTag : Html → Bool
  | .elem t _ _ => t = "h2" || t = "h3" || t = "li" || t = "p"
  | .text _ => false

/-- Body of the `.each` callback at lines 207–212: push the trimmed text
when it is truthy (non-empty) and has positive length. -/
def pushNonempty (acc : List String) (e : Html) : List String :=
  let t := jsTrim (textContent e)
  if ¬ t = "" ∧ 0 < t.length then acc ++ [t] else acc

/-- The `paragraphs` array accumulated by `extractText`, lines 206–212. -/
def extractParagraphs (doc : Html) : List String :=
  (selectAll isTextTag doc).foldl pushNonempty []

/-- `extractText`, lines 194–215: the pieces joined by a blank line. -/
def extractText (doc : Html) : String :=
  String.intercalate "\n\n" (extractParagraphs doc)

lemma ne_empty_iff_lengthPos (s : String) : ¬ s = "" ↔ 0 < s.length := by
  rw [String.ext_iff]
  exact ⟨fun h => List.length_pos.mpr h, fun h => List.length_pos.mp h⟩

lemma foldl_pushNonempty (es : List Html) (acc : List String) :
    es.foldl pushNonempty acc =
      acc ++ (es.map (fun e => jsTrim (textContent e))).filter (fun t => ¬ t = "") := by
  induction es generalizing acc with
  | nil => simp
  | cons e es ih =>
    rw [List.foldl_cons, ih, List.map_cons, List.filter_cons]
    by_cases h : jsTrim (textContent e) = ""
    · simp [pushNonempty, h]
    · have hpos : 0 < (jsTrim (textContent e)).length :=
        (ne_empty_iff_lengthPos _).mp h
      simp [pushNonempty, h, hpos]

/-- C8: segmented-text extraction keeps, in document order and without
de-duplication, the trimmed text of every element matching the tag
allow-list, dropping only empty pieces, and joins them with a blank line;
over `<div><p>X</p></div>` both the `div` and the nested `p` contribute,
so `"X"` occurs twice. -/
theorem c8_segmented_text (doc : Html) :
    extractParagraphs doc =
      ((selectAll isTextTag doc).map (fun e => jsTrim (textContent e))).filter
        (fun t => ¬ t = "") ∧
    extractText doc = String.intercalate "\n\n" (extractParagraphs doc) ∧
    extractParagraphs (Html.elem "div" [] [Html.elem "p" [] [Html.text "X"]]) = ["X", "X"] ∧
    (extractParagraphs (Html.elem "div" [] [Html.elem "p" [] [Html.text "X"]])).count "X" = 2 ∧
    extractText (Html.elem "div" [] [Html.elem "p" [] [Html.text "X"]]) = "X\n\nX" := by
  refine ⟨?_, rfl, by decide, by decide, by decide⟩
  exact foldl_pushNonempty _ []

/-- The fixed target page URL, line 18. -/
def TARGET_URL : String := "https://myinsurancepolicy.be/rgf/car/fr"

/-- The `policyInfo` record of `getRGFPolicyInfo`, lines 269–276. -/
structure PolicyInfo where
  policyName : String
  url : String
  coverageTypes : List String
  features : List String
  benefits : List String
  fullDetails : String

/-- Elements scanned at lines 279–281: for each container matched by
`section, article, .content, .policy-details`, its descendant
`h2, h3, li, p` elements, in document order. -/
def policyScanElems (doc : Html) : List Html :=
  (selectAll isContainer doc).flatMap (findMatching isPolicyTag)

/-- Body of the `.each` callback at lines 281–291: when the trimmed text is
truthy and longer than 20, `h2`/`h3` goes to `coverageTypes`, `li` to
`features`; anything else (the matched `p` elements) is dropped. -/
def scanStep (acc : List String × List String) (e : Html) : List String × List String :=
  match e with
  | .text _ => acc
  | .elem t _ _ =>
    let s := jsTrim (textContent e)
    if ¬ s = "" ∧ 20 < s.length then
      if t = "h2" ∨ t = "h3" then (acc.1 ++ [s], acc.2)
      else if t = "li" then (acc.1, acc.2 ++ [s])
      else acc
    else acc

/-- `getRGFPolicyInfo`, lines 257–297: constants, the two scanned lists, the
never-written `benefits`, and the body text capped at 8000 characters. -/
def getRGFPolicyInfo (doc : Html) : PolicyInfo :=
  let scanned := (policyScanElems doc).foldl scanStep ([], [])
  { policyName := "RGF Car Insurance"
    url := TARGET_URL
    coverageTypes := scanned.1
    features := scanned.2
    benefits := []
    fullDetails := (jsTrim (textContent doc)).take 8000 }

/-- Spec-side classifier for `coverageTypes`: the trimmed text of an
`h2`/`h3` element when longer than 20 characters. -/
def coverageOf (e : Html) : Option String :=
  match e with
  | .text _ => none
  | .elem t _ _ =>
    let s := jsTrim (textContent e)
    if (¬ s = "" ∧ 20 < s.length) ∧ (t = "h2" ∨ t = "h3") then some s else none

/-- Spec-side classifier for `features`: the trimmed text of an `li`
element when longer than 20 characters. -/
def featureOf (e : Html) : Option String :=
  match e with
  | .text _ => none
  | .elem t _ _ =>
    let s := jsTrim (textContent e)
    if (¬ s = "" ∧ 20 < s.length) ∧ t = "li" then some s else none

lemma scanStep_fst (acc : List String × List String) (e : Html) :
    (scanStep acc e).1 = acc.1 ++ (coverageOf e).toList := by
  cases e with
  | text s => simp [scanStep, coverageOf]
  | elem t cls cs =>
    simp only [scanStep, coverageOf]
    by_cases hA : ¬ jsTrim (textContent (Html.elem t cls cs)) = "" ∧
        20 < (jsTrim (textContent (Html.elem t cls cs))).length
    · by_cases hB : t = "h2" ∨ t = "h3"
      · simp [hA, hB]
      · by_cases hC : t = "li"
        · subst hC
          simp [hA, hB]
        · simp [hA, hB, hC]
    · simp [hA]

lemma scanStep_snd (acc : List String × List String) (e : Html) :
    (scanStep acc e).2 = acc.2 ++ (featureOf e).toList := by
  cases e with
  | text s => simp [scanStep, featureOf]
  | elem t cls cs =>
    simp only [scanStep, featureOf]
    by_cases hA : ¬ jsTrim (textContent (Html.elem t cls cs)) = "" ∧
        20 < (jsTrim (textContent (Html.elem t cls cs))).length
    · by_cases hB : t = "h2" ∨ t = "h3"
      · have hC : ¬ t = "li" := by rcases hB with h | h <;> simp [h]
        simp [hA, hB, hC]
      · by_cases hC : t = "li"
        · subst hC
          simp [hA, hB]
        · simp [hA, hB, hC]
    · simp [hA]

lemma foldl_scanStep (es : List Html) (acc : List String × List String) :
    es.foldl scanStep acc =
      (acc.1 ++ es.filterMap coverageOf, acc.2 ++ es.filterMap featureOf) := by
  induction es generalizing acc with
  | nil => simp
  | cons e es ih =>
    rw [List.foldl_cons, ih, scanStep_fst, scanStep_snd]
    cases hco : coverageOf e <;> cases hfe : featureOf e <;>
      simp [List.filterMap_cons, hco, hfe]

/-- C7: policy-info extraction fills `coverageTypes` with exactly the
trimmed `h2`/`h3` texts longer than 20 characters among the scanned
elements, `features` with exactly the `li` ones, and `benefits` is empty
for every input markup (matching `p` elements are appended nowhere). -/
theorem c7_policy_info_classification (doc : Html) :
    (getRGFPolicyInfo doc).coverageTypes = (policyScanElems doc).filterMap coverageOf ∧
    (getRGFPolicyInfo doc).features = (policyScanElems doc).filterMap featureOf ∧
    (getRGFPolicyInfo doc).benefits = [] := by
  refine ⟨?_, ?_, rfl⟩ <;> simp [getRGFPolicyInfo, foldl_scanStep]

end NNInsurance
